import Mathlib

set_option maxRecDepth 100000

/-!
Shallow embedding of the conversation-turn pipeline of
`src/supabase/functions/chat-with-ai/index.ts`.

The edge function is a single request handler:
authenticate, read profile / credit info / goals (read errors are logged
and absorbed), parse the JSON body, build a system prompt by string
concatenation, call the completion provider, extract
`data.choices[0].message.content`, attempt two `chat_history` inserts
(user message then assistant message, each failure logged only), and
respond `{ response }` with status 200; any thrown error is caught and
answered `{ error: message }` with status 500.

Modelling conventions:
* Nullable database columns become `Option` fields.  Numeric columns
  (INTEGER and DECIMAL) are modelled at integer precision as `Option Int`;
  the handler only tests them for JavaScript truthiness and interpolates
  them into template strings, and an integer renders identically in both
  languages.
* JavaScript `x || fallback` and `x ? a : b` test truthiness: `null`,
  `undefined`, `0` and the empty string are falsy.  The helpers `jsNumOr`,
  `jsStrOr` translate the `||` idiom exactly.
* The outside world (auth result, rows read, parsed body, provider
  response, insert outcomes) is an explicit environment `TurnEnv`; the
  handler `handleTurn` is a pure function of it.  `TurnResult` records the
  HTTP-level outcome, the `chat_history` rows whose insert succeeded (in
  insert order), the steps executed in order, and the system prompt that
  was sent to the provider (if the call was reached).
* A thrown JavaScript exception is the `TurnOutcome.failure` branch: the
  catch block answers status 500 with the exception message.
-/

/-- Row of `public.profiles` as consumed by the handler (nullable fields). -/
structure Profile where
  first_name : Option String
  last_name : Option String
  age : Option Int
  email : Option String
deriving DecidableEq, Inhabited

/-- Row of `public.credit_info` as consumed by the handler. -/
structure CreditInfo where
  credit_score : Option Int
  total_debt : Option Int
  late_payments : Option Int
  credit_utilization : Option Int
deriving DecidableEq, Inhabited

/-- Row of `public.financial_goals` as consumed by the handler. -/
structure Goal where
  title : String
  description : Option String
  target_amount : Option Int
  target_date : Option String
  priority : Option String
  status : Option String
deriving DecidableEq, Inhabited

/-- JavaScript `v || fallback` for a nullable number interpolated into a
template string: a missing or zero (falsy) value renders the fallback. -/
def jsNumOr (v : Option Int) (fallback : String) : String :=
  match v with
  | none => fallback
  | some n => if n = 0 then fallback else toString n

/-- JavaScript `v || fallback` for a nullable string: a missing or empty
(falsy) value renders the fallback. -/
def jsStrOr (v : Option String) (fallback : String) : String :=
  match v with
  | none => fallback
  | some s => if s = "" then fallback else s

/-- Fixed persona preamble of the system prompt (first template line). -/
def personaPreamble : String :=
  "You are a helpful financial coach AI assistant. You provide personalized financial advice based on the user\x27s information."

/-- Identity block of the system prompt; always emitted, with the
fallbacks of the source template. -/
def identityBlock (profile : Option Profile) : String :=
  "\n\nUser Information:\n- Name: "
    ++ jsStrOr (profile.bind Profile.first_name) "Unknown"
    ++ " "
    ++ jsStrOr (profile.bind Profile.last_name) ""
    ++ "\n- Age: "
    ++ jsNumOr (profile.bind Profile.age) "Not provided"
    ++ "\n- Email: "
    ++ jsStrOr (profile.bind Profile.email) "Not provided"

/-- Credit block of the system prompt, emitted when `creditInfo` is
present (a non-null object is truthy). -/
def creditBlock (creditInfo : CreditInfo) : String :=
  "\n\nCredit Information:\n- Credit Score: "
    ++ jsNumOr creditInfo.credit_score "Not provided"
    ++ "\n- Total Debt: $"
    ++ jsNumOr creditInfo.total_debt "Not provided"
    ++ "\n- Late Payments: "
    ++ jsNumOr creditInfo.late_payments "0"
    ++ "\n- Credit Utilization: "
    ++ jsNumOr creditInfo.credit_utilization "Not provided"
    ++ "%"

/-- One goal entry of the `forEach` body: `index` is the zero-based loop
index; the two suffixes are JavaScript ternaries on truthy fields, and the
description line is guarded by `if (goal.description)`. -/
def goalEntry (index : Nat) (goal : Goal) : String :=
  "\n" ++ toString (index + 1) ++ ". " ++ goal.title
    ++ (match goal.target_amount with
        | none => ""
        | some n => if n = 0 then "" else " (Target: $" ++ toString n ++ ")")
    ++ (match goal.target_date with
        | none => ""
        | some d => if d = "" then "" else " (Due: " ++ d ++ ")")
    ++ "\n   Status: " ++ jsStrOr goal.status "active"
    ++ "\n   Priority: " ++ jsStrOr goal.priority "medium"
    ++ (match goal.description with
        | none => ""
        | some d => if d = "" then "" else "\n   Description: " ++ d)

/-- The goal entries appended by `goals.forEach((goal, index) => ...)`,
starting at loop index `index`. -/
def goalEntriesFrom (index : Nat) : List Goal → List String
  | [] => []
  | goal :: rest => goalEntry index goal :: goalEntriesFrom (index + 1) rest

/-- Goal block of the system prompt, emitted when the goal list is
non-empty. -/
def goalsBlock (goals : List Goal) : String :=
  "\n\nFinancial Goals:" ++ String.join (goalEntriesFrom 0 goals)

/-- Fixed closing instruction appended last to the system prompt. -/
def closingInstruction : String :=
  "\n\nPlease provide helpful, personalized financial advice based on this information. Be encouraging, practical, and specific in your recommendations. If you don\x27t have enough information about something, ask clarifying questions."

/-- The system prompt built by the handler (the Context Synthesizer).
`profile`, `creditInfo` and `goals` are the data halves of the three reads
(`null` on a failed or empty read); `if (goals && goals.length > 0)`
guards the goal block. -/
def systemPrompt (profile : Option Profile) (creditInfo : Option CreditInfo)
    (goals : Option (List Goal)) : String :=
  personaPreamble
    ++ identityBlock profile
    ++ (match creditInfo with
        | none => ""
        | some c => creditBlock c)
    ++ (match goals with
        | none => ""
        | some l => if l.length > 0 then goalsBlock l else "")
    ++ closingInstruction

/-- C5: for every combination of profile (possibly absent), credit
standing (possibly absent) and goal list (possibly null or empty), the
Context Synthesizer is total and produces non-empty text that carries the
fixed persona preamble at the front and the fixed closing instruction at
the end. -/
theorem systemPrompt_total_preamble_closing
    (profile : Option Profile) (creditInfo : Option CreditInfo)
    (goals : Option (List Goal)) :
    (∃ mid, systemPrompt profile creditInfo goals
        = personaPreamble ++ mid ++ closingInstruction)
      ∧ 0 < (systemPrompt profile creditInfo goals).length := by
  constructor
  · refine ⟨identityBlock profile
      ++ (match creditInfo with
          | none => ""
          | some c => creditBlock c)
      ++ (match goals with
          | none => ""
          | some l => if l.length > 0 then goalsBlock l else ""), ?_⟩
    simp only [systemPrompt, String.append_assoc]
  · have h : 0 < personaPreamble.length := by decide
    simp only [systemPrompt, String.length_append]
    omega

/-- Modelled from the claim C4 wording: a credit block in which credit
score, total debt and utilization fall back to "Not provided" exactly when
the field is null, and late payments falls back to "0" exactly when null.
To be compared with `creditBlock`, the block the source builds. -/
def claimedCreditBlockNullOnly (creditInfo : CreditInfo) : String :=
  "\n\nCredit Information:\n- Credit Score: "
    ++ (match creditInfo.credit_score with
        | none => "Not provided"
        | some n => toString n)
    ++ "\n- Total Debt: $"
    ++ (match creditInfo.total_debt with
        | none => "Not provided"
        | some n => toString n)
    ++ "\n- Late Payments: "
    ++ (match creditInfo.late_payments with
        | none => "0"
        | some n => toString n)
    ++ "\n- Credit Utilization: "
    ++ (match creditInfo.credit_utilization with
        | none => "Not provided"
        | some n => toString n)
    ++ "%"

/-- C4 counterexample: a present total debt of 0 (a debt-free user) is
falsy in JavaScript, so the source's `|| 'Not provided'` renders
"Not provided" even though the field is not null; the block the code
builds differs from the claimed null-only-fallback rendering. -/
theorem creditBlock_zero_debt_cex :
    creditBlock ⟨some 700, some 0, some 2, some 30⟩
        ≠ claimedCreditBlockNullOnly ⟨some 700, some 0, some 2, some 30⟩
      ∧ (⟨some 700, some 0, some 2, some 30⟩ : CreditInfo).total_debt ≠ none := by
  exact ⟨by decide, by decide⟩

/-- C4 as amended: for every present CreditStanding the credit block is
emitted with its four fields in order; credit score, total debt and
utilization render their value when present and nonzero and fall back to
"Not provided" when null or zero (JavaScript falsiness), and late
payments renders its value when present and nonzero and falls back to
"0" when null or zero. -/
theorem creditBlock_fields (creditInfo : CreditInfo) :
    ∃ s d l u,
      creditBlock creditInfo
          = "\n\nCredit Information:\n- Credit Score: " ++ s
            ++ "\n- Total Debt: $" ++ d
            ++ "\n- Late Payments: " ++ l
            ++ "\n- Credit Utilization: " ++ u
            ++ "%"
        ∧ (creditInfo.credit_score = none ∨ creditInfo.credit_score = some 0
            → s = "Not provided")
        ∧ (∀ n, creditInfo.credit_score = some n → n ≠ 0 → s = toString n)
        ∧ (creditInfo.total_debt = none ∨ creditInfo.total_debt = some 0
            → d = "Not provided")
        ∧ (∀ n, creditInfo.total_debt = some n → n ≠ 0 → d = toString n)
        ∧ (creditInfo.late_payments = none ∨ creditInfo.late_payments = some 0
            → l = "0")
        ∧ (∀ n, creditInfo.late_payments = some n → n ≠ 0 → l = toString n)
        ∧ (creditInfo.credit_utilization = none ∨ creditInfo.credit_utilization = some 0
            → u = "Not provided")
        ∧ (∀ n, creditInfo.credit_utilization = some n → n ≠ 0 → u = toString n) := by
  refine ⟨jsNumOr creditInfo.credit_score "Not provided",
    jsNumOr creditInfo.total_debt "Not provided",
    jsNumOr creditInfo.late_payments "0",
    jsNumOr creditInfo.credit_utilization "Not provided",
    rfl, ?_, ?_, ?_, ?_, ?_, ?_, ?_, ?_⟩
  all_goals first
    | (rintro (h | h) <;> simp [h, jsNumOr])
    | (intro n hn hnz; simp [hn, jsNumOr, hnz])

/-- C4 amended-claim witness: concrete evaluation through
`creditBlock_fields` at score 700, null debt, zero late payments,
utilization 45. -/
theorem creditBlock_fields_witness :
    creditBlock ⟨some 700, none, some 0, some 45⟩
      = "\n\nCredit Information:\n- Credit Score: 700\n- Total Debt: $Not provided\n- Late Payments: 0\n- Credit Utilization: 45%" := by
  obtain ⟨s, d, l, u, heq, -, hs, hd0, -, hl0, -, -, hu⟩ :=
    creditBlock_fields ⟨some 700, none, some 0, some 45⟩
  rw [heq, hs 700 rfl (by decide), hd0 (Or.inl rfl), hl0 (Or.inr rfl),
    hu 45 rfl (by decide)]
  decide

/-- Modelled from the claim C6 wording: a goal entry numbered `num` whose
"(Target: $amount)" suffix is present exactly when the goal has a target
amount and whose "(Due: date)" suffix is present exactly when it has a
target date.  To be compared with `goalEntry`, the entry the source
builds. -/
def claimedGoalEntryPresent (num : Nat) (goal : Goal) : String :=
  "\n" ++ toString num ++ ". " ++ goal.title
    ++ (match goal.target_amount with
        | none => ""
        | some n => " (Target: $" ++ toString n ++ ")")
    ++ (match goal.target_date with
        | none => ""
        | some d => " (Due: " ++ d ++ ")")
    ++ "\n   Status: " ++ jsStrOr goal.status "active"
    ++ "\n   Priority: " ++ jsStrOr goal.priority "medium"
    ++ (match goal.description with
        | none => ""
        | some d => if d = "" then "" else "\n   Description: " ++ d)

/-- Modelled from the claim C6 wording: the goal block lists the goals in
input order numbered 1..N, each entry rendered by
`claimedGoalEntryPresent`. -/
def claimedGoalsBlockPresent (goals : List Goal) : String :=
  "\n\nFinancial Goals:"
    ++ String.join (goals.enum.map (fun p => claimedGoalEntryPresent (p.1 + 1) p.2))

/-- C6 counterexample: a goal with a present target amount of 0 is falsy
in JavaScript, so the source's ternary emits no "(Target: ...)" suffix;
the block the code builds differs from the claimed
suffix-present-iff-field-present rendering. -/
theorem goalsBlock_zero_target_cex :
    goalsBlock [⟨"Emergency fund", none, some 0, none, none, none⟩]
        ≠ claimedGoalsBlockPresent [⟨"Emergency fund", none, some 0, none, none, none⟩]
      ∧ (⟨"Emergency fund", none, some 0, none, none, none⟩ : Goal).target_amount ≠ none := by
  exact ⟨by decide, by decide⟩

/-- Length of the entry list equals the length of the goal list. -/
theorem goalEntriesFrom_length (goals : List Goal) :
    ∀ k, (goalEntriesFrom k goals).length = goals.length := by
  induction goals with
  | nil => intro k; rfl
  | cons g rest ih => intro k; simp [goalEntriesFrom, ih]

/-- The i-th entry of the list built from loop index `k` is the entry for
the i-th goal at loop index `k + i`. -/
theorem goalEntriesFrom_getD (goals : List Goal) :
    ∀ k i, (h : i < goals.length)
      → (goalEntriesFrom k goals).getD i "" = goalEntry (k + i) goals[i] := by
  induction goals with
  | nil => intro k i h; simp at h
  | cons g rest ih =>
    intro k i h
    cases i with
    | zero => rfl
    | succ j =>
      have hj : j < rest.length := by simpa using h
      have hadd : k + (j + 1) = k + 1 + j := by omega
      simp only [goalEntriesFrom, List.getD_cons_succ, List.getElem_cons_succ, hadd]
      exact ih (k + 1) j hj

/-- C6 as amended: for every goal list the block lists the goals in exact
input order numbered 1..N, each entry carrying the "(Target: $amount)"
suffix exactly when the target amount is present and nonzero and the
"(Due: date)" suffix exactly when the target date is present and
non-empty (JavaScript truthiness; a zero amount or empty date emits no
suffix — dates read from the DATE column are always non-empty). -/
theorem goalsBlock_order_and_suffixes (goals : List Goal) :
    goalsBlock goals = "\n\nFinancial Goals:" ++ String.join (goalEntriesFrom 0 goals)
      ∧ (goalEntriesFrom 0 goals).length = goals.length
      ∧ ∀ i, (h : i < goals.length) →
          ∃ tSuf dSuf,
            (goalEntriesFrom 0 goals).getD i ""
                = "\n" ++ toString (i + 1) ++ ". " ++ goals[i].title ++ tSuf ++ dSuf
                  ++ "\n   Status: " ++ jsStrOr goals[i].status "active"
                  ++ "\n   Priority: " ++ jsStrOr goals[i].priority "medium"
                  ++ (match goals[i].description with
                      | none => ""
                      | some d => if d = "" then "" else "\n   Description: " ++ d)
              ∧ (goals[i].target_amount = none ∨ goals[i].target_amount = some 0
                  → tSuf = "")
              ∧ (∀ n, goals[i].target_amount = some n → n ≠ 0
                  → tSuf = " (Target: $" ++ toString n ++ ")")
              ∧ (goals[i].target_date = none ∨ goals[i].target_date = some ""
                  → dSuf = "")
              ∧ (∀ d, goals[i].target_date = some d → d ≠ ""
                  → dSuf = " (Due: " ++ d ++ ")") := by
  refine ⟨rfl, goalEntriesFrom_length goals 0, ?_⟩
  intro i h
  have hg := goalEntriesFrom_getD goals 0 i h
  rw [Nat.zero_add] at hg
  refine ⟨(match goals[i].target_amount with
      | none => ""
      | some n => if n = 0 then "" else " (Target: $" ++ toString n ++ ")"),
    (match goals[i].target_date with
      | none => ""
      | some d => if d = "" then "" else " (Due: " ++ d ++ ")"),
    ?_, ?_, ?_, ?_, ?_⟩
  · rw [hg]; simp only [goalEntry, String.append_assoc]
  · rintro (h0 | h0) <;> simp [h0]
  · intro n hn hnz; simp [hn, hnz]
  · rintro (h0 | h0) <;> simp [h0]
  · intro d hd hdz; simp [hd, hdz]

/-- C6 amended-claim witness: concrete evaluation through
`goalsBlock_order_and_suffixes` on a two-goal list, second entry numbered
2 with a due-date suffix and no target suffix. -/
theorem goalsBlock_order_and_suffixes_witness :
    (goalEntriesFrom 0
        [⟨"Buy a house", none, some 400000, none, some "high", some "active"⟩,
         ⟨"Trip", none, none, some "2026-01-01", none, none⟩]).getD 1 ""
      = "\n2. Trip (Due: 2026-01-01)\n   Status: active\n   Priority: medium" := by
  obtain ⟨-, -, hi⟩ := goalsBlock_order_and_suffixes
    [⟨"Buy a house", none, some 400000, none, some "high", some "active"⟩,
     ⟨"Trip", none, none, some "2026-01-01", none, none⟩]
  obtain ⟨tS, dS, heq, ht0, -, -, hd⟩ := hi 1 (by decide)
  rw [heq, ht0 (Or.inl rfl), hd "2026-01-01" rfl (by decide)]
  decide

/-- Message object inside a provider choice; `content` may be absent. -/
structure ChoiceMessage where
  content : Option String
deriving DecidableEq, Inhabited

/-- One element of the provider's `choices` array; `message` may be
absent. -/
structure Choice where
  message : Option ChoiceMessage
deriving DecidableEq, Inhabited

/-- Parsed JSON body of a provider success response; the `choices` field
itself may be absent. -/
structure ProviderPayload where
  choices : Option (List Choice)
deriving DecidableEq, Inhabited

/-- The provider's HTTP response as the handler observes it: `ok` and
`status` from the fetch response, `errorBody` the text read on the
non-success branch, `payload` the JSON parsed on the success branch. -/
structure ProviderResponse where
  ok : Bool
  status : Nat
  errorBody : String
  payload : ProviderPayload
deriving DecidableEq, Inhabited

/-- The JavaScript expression `data.choices[0].message.content`.
Reading a property of `undefined` throws a TypeError (caught by the outer
catch): this happens when `choices` is absent, when `choices[0]` is
absent (empty array), or when `message` is absent.  An absent `content`
alone does NOT throw: the expression just evaluates to `undefined`
(`Except.ok none`).  The exact TypeError wording is engine-specific and
immaterial; only which shapes throw matters. -/
def extractReply (data : ProviderPayload) : Except String (Option String) :=
  match data.choices with
  | none => Except.error "Cannot read properties of undefined (reading \x270\x27)"
  | some choices =>
    match choices with
    | [] => Except.error "Cannot read properties of undefined (reading \x27message\x27)"
    | c :: _ =>
      match c.message with
      | none => Except.error "Cannot read properties of undefined (reading \x27content\x27)"
      | some m => Except.ok m.content

/-- Row of `public.chat_history` as inserted by the handler.  `message`
is `Option String` because the JavaScript value inserted can be
`undefined` (an absent `content` field). -/
structure ChatRow where
  user_id : String
  message : Option String
  is_user_message : Bool
deriving DecidableEq, Inhabited

/-- HTTP-level outcome of a turn: `success reply` is the 200 response
`JSON { response: reply }`; `failure errMsg` is the catch block's 500
response `JSON { error: errMsg }`. -/
inductive TurnOutcome where
  | success (reply : Option String)
  | failure (errMsg : String)
deriving DecidableEq

/-- The externally visible steps of the handler, in execution order. -/
inductive TurnStep where
  | getUser
  | readProfile
  | readCreditInfo
  | readGoals
  | parseBody
  | callProvider
  | insertUserMessage
  | insertAssistantMessage
deriving DecidableEq

/-- Everything the outside world feeds one invocation of the handler:
the environment variable, the auth result (`none` for `userError || !user`),
the data halves of the three reads (their errors are only logged, so the
absorbed form is the data being `null`), the body parse result (`error`
models a rejected `req.json()`), the provider response, and the `error`
halves of the two inserts (`none` = insert succeeded). -/
structure TurnEnv where
  apiKey : Option String
  authUser : Option String
  profile : Option Profile
  creditInfo : Option CreditInfo
  goals : Option (List Goal)
  body : Except String (Option String)
  provider : ProviderResponse
  saveUserError : Option String
  saveAIError : Option String
deriving Inhabited

/-- Result of one invocation: the response, the `chat_history` rows whose
insert succeeded in insert order, the steps executed in order, and the
system prompt handed to the provider when the call was reached. -/
structure TurnResult where
  outcome : TurnOutcome
  rows : List ChatRow
  events : List TurnStep
  sentSystem : Option String
deriving DecidableEq

/-- The `serve` handler of `chat-with-ai/index.ts` as a function of its
environment.  Order of operations follows the source: missing API key
throws; `getUser` failure throws; the three reads log their errors and
continue; `req.json()` rejection throws; `!response.ok` throws the
generic `OpenAI API error: <status>` message (the body text is read only
for logging); reply extraction may throw; both inserts are attempted
unconditionally, each failure logged only; finally the 200 response
carries the reply.  Every throw is answered by the catch block as a 500
`{ error }` with no rows inserted at that point. -/
def handleTurn (env : TurnEnv) : TurnResult :=
  match env.apiKey with
  | none => ⟨.failure "OPEN_AI_API_KEY is not set", [], [], none⟩
  | some _ =>
    match env.authUser with
    | none => ⟨.failure "User not authenticated", [], [.getUser], none⟩
    | some uid =>
      match env.body with
      | .error e =>
        ⟨.failure e, [],
         [.getUser, .readProfile, .readCreditInfo, .readGoals, .parseBody], none⟩
      | .ok message =>
        let sys := systemPrompt env.profile env.creditInfo env.goals
        if env.provider.ok = false then
          ⟨.failure ("OpenAI API error: " ++ toString env.provider.status), [],
           [.getUser, .readProfile, .readCreditInfo, .readGoals, .parseBody,
            .callProvider], some sys⟩
        else
          match extractReply env.provider.payload with
          | .error e =>
            ⟨.failure e, [],
             [.getUser, .readProfile, .readCreditInfo, .readGoals, .parseBody,
              .callProvider], some sys⟩
          | .ok aiResponse =>
            ⟨.success aiResponse,
             (if env.saveUserError.isNone then [⟨uid, message, true⟩] else [])
               ++ (if env.saveAIError.isNone then [⟨uid, aiResponse, false⟩] else []),
             [.getUser, .readProfile, .readCreditInfo, .readGoals, .parseBody,
              .callProvider, .insertUserMessage, .insertAssistantMessage], some sys⟩

/-- A fully successful environment used as the base of the concrete
witnesses: key set, authenticated user, empty context, well-formed body,
provider success with a reply, both inserts succeeding. -/
def okEnv : TurnEnv :=
  { apiKey := some "k"
    authUser := some "user-1"
    profile := none
    creditInfo := none
    goals := none
    body := Except.ok (some "How much should I save monthly?")
    provider :=
      { ok := true
        status := 200
        errorBody := ""
        payload :=
          { choices := [Choice.mk (some (ChoiceMessage.mk (some "Save 20 percent.")))] } }
    saveUserError := none
    saveAIError := none }

/-- Environment whose provider call fails with status 500 and a raw error
body. -/
def failEnv : TurnEnv :=
  { okEnv with provider :=
      { ok := false
        status := 500
        errorBody := "upstream raw error body"
        payload := { choices := none } } }

/-- C1: when authentication, body parsing, the provider call and both
recording inserts succeed, exactly two chat-history rows are appended —
the user message first (is_user_message true), then the assistant reply
(is_user_message false) — and the returned reply equals the text
extracted from the provider response (choices[0].message.content). -/
theorem turn_success_two_rows (env : TurnEnv) (key uid : String)
    (msg r : Option String)
    (hk : env.apiKey = some key) (ha : env.authUser = some uid)
    (hb : env.body = Except.ok msg) (hok : env.provider.ok = true)
    (hr : extractReply env.provider.payload = Except.ok r)
    (hu : env.saveUserError = none) (hai : env.saveAIError = none) :
    (handleTurn env).rows = [⟨uid, msg, true⟩, ⟨uid, r, false⟩]
      ∧ (handleTurn env).outcome = TurnOutcome.success r := by
  refine ⟨?_, ?_⟩ <;> simp [handleTurn, hk, ha, hb, hok, hr, hu, hai]

/-- C1 witness: concrete successful turn through
`turn_success_two_rows`. -/
theorem turn_success_two_rows_witness :
    (handleTurn okEnv).rows
        = [⟨"user-1", some "How much should I save monthly?", true⟩,
           ⟨"user-1", some "Save 20 percent.", false⟩]
      ∧ (handleTurn okEnv).outcome = TurnOutcome.success (some "Save 20 percent.") :=
  turn_success_two_rows okEnv "k" "user-1"
    (some "How much should I save monthly?") (some "Save 20 percent.")
    rfl rfl rfl rfl rfl rfl rfl

/-- C2: a provider non-success status makes the turn fatal — the caller
gets the error response (the generic message built from the status code)
— and zero chat-history rows are appended; neither insert is even
attempted. -/
theorem provider_error_fatal_no_rows (env : TurnEnv) (key uid : String)
    (msg : Option String)
    (hk : env.apiKey = some key) (ha : env.authUser = some uid)
    (hb : env.body = Except.ok msg) (hfail : env.provider.ok = false) :
    (handleTurn env).outcome
        = TurnOutcome.failure ("OpenAI API error: " ++ toString env.provider.status)
      ∧ (handleTurn env).rows = []
      ∧ TurnStep.insertUserMessage ∉ (handleTurn env).events
      ∧ TurnStep.insertAssistantMessage ∉ (handleTurn env).events := by
  refine ⟨?_, ?_, ?_, ?_⟩ <;> simp [handleTurn, hk, ha, hb, hfail]

/-- C2 witness: concrete provider failure through
`provider_error_fatal_no_rows`. -/
theorem provider_error_fatal_no_rows_witness :
    (handleTurn failEnv).outcome
        = TurnOutcome.failure ("OpenAI API error: " ++ toString (500 : Nat))
      ∧ (handleTurn failEnv).rows = []
      ∧ TurnStep.insertUserMessage ∉ (handleTurn failEnv).events
      ∧ TurnStep.insertAssistantMessage ∉ (handleTurn failEnv).events :=
  provider_error_fatal_no_rows failEnv "k" "user-1"
    (some "How much should I save monthly?") rfl rfl rfl rfl

/-- C3: after a successful provider call the response to the caller is
the success response carrying the assistant reply, whatever the two
insert outcomes are — the response does not depend on Recording
success. -/
theorem recording_failure_keeps_response (env : TurnEnv) (key uid : String)
    (msg r : Option String) (e1 e2 : Option String)
    (hk : env.apiKey = some key) (ha : env.authUser = some uid)
    (hb : env.body = Except.ok msg) (hok : env.provider.ok = true)
    (hr : extractReply env.provider.payload = Except.ok r) :
    (handleTurn { env with saveUserError := e1, saveAIError := e2 }).outcome
      = TurnOutcome.success r := by
  simp [handleTurn, hk, ha, hb, hok, hr]

/-- C3 witness: a recorder stub that always fails still yields the
success response, through `recording_failure_keeps_response`. -/
theorem recording_failure_keeps_response_witness :
    (handleTurn { okEnv with
        saveUserError := some "insert failed"
        saveAIError := some "insert failed" }).outcome
      = TurnOutcome.success (some "Save 20 percent.") :=
  recording_failure_keeps_response okEnv "k" "user-1"
    (some "How much should I save monthly?") (some "Save 20 percent.")
    (some "insert failed") (some "insert failed") rfl rfl rfl rfl rfl

/-- Environment whose provider succeeds but whose payload has
`choices[0].message` present with the `content` field absent. -/
def missingContentEnv : TurnEnv :=
  { okEnv with provider :=
      { ok := true
        status := 200
        errorBody := ""
        payload := { choices := [Choice.mk (some (ChoiceMessage.mk none))] } } }

/-- C7 counterexample: a success payload whose `choices[0].message` is
present but lacks `content` does NOT fail the turn — the JavaScript
expression `data.choices[0].message.content` merely evaluates to
`undefined`, and the handler answers 200 with an undefined reply, against
the claim that every malformed payload (missing reply field) is a
ProviderError that fails the turn. -/
theorem missing_content_not_fatal_cex :
    (handleTurn missingContentEnv).outcome = TurnOutcome.success none
      ∧ extractReply missingContentEnv.provider.payload = Except.ok none := by
  exact ⟨rfl, rfl⟩

/-- C7 as amended: a provider non-success status fails the turn with the
generic status error, and a success payload whose `choices` field,
`choices[0]` element or `message` object is missing fails the turn with
the thrown TypeError — both reach the caller as the same failed-turn
shape (a 500 error response) with no rows appended; but a payload whose
`message` is present with only `content` missing does not fail the turn:
it yields a success response with an undefined reply. -/
theorem provider_failure_single_kind (env : TurnEnv) (key uid : String)
    (msg : Option String)
    (hk : env.apiKey = some key) (ha : env.authUser = some uid)
    (hb : env.body = Except.ok msg) :
    (env.provider.ok = false →
        (handleTurn env).outcome
            = TurnOutcome.failure ("OpenAI API error: " ++ toString env.provider.status)
          ∧ (handleTurn env).rows = [])
      ∧ (∀ e, env.provider.ok = true
          → extractReply env.provider.payload = Except.error e
          → (handleTurn env).outcome = TurnOutcome.failure e
            ∧ (handleTurn env).rows = [])
      ∧ (env.provider.ok = true
          → extractReply env.provider.payload = Except.ok none
          → (handleTurn env).outcome = TurnOutcome.success none) := by
  refine ⟨?_, ?_, ?_⟩
  · intro hf
    refine ⟨?_, ?_⟩ <;> simp [handleTurn, hk, ha, hb, hf]
  · intro e hok he
    refine ⟨?_, ?_⟩ <;> simp [handleTurn, hk, ha, hb, hok, he]
  · intro hok he
    simp [handleTurn, hk, ha, hb, hok, he]

/-- C7 amended-claim witness: an empty `choices` array fails the turn
with the TypeError message, through `provider_failure_single_kind`. -/
theorem provider_failure_single_kind_witness :
    (handleTurn { okEnv with provider :=
        { ok := true, status := 200, errorBody := "", payload := { choices := some [] } } }).outcome
        = TurnOutcome.failure "Cannot read properties of undefined (reading \x27message\x27)"
      ∧ (handleTurn { okEnv with provider :=
          { ok := true, status := 200, errorBody := "", payload := { choices := some [] } } }).rows
        = [] :=
  (provider_failure_single_kind
      { okEnv with provider :=
        { ok := true, status := 200, errorBody := "", payload := { choices := some [] } } }
      "k" "user-1" (some "How much should I save monthly?") rfl rfl rfl).2.1
    "Cannot read properties of undefined (reading \x27message\x27)" rfl rfl

/-- The handler never reads the provider's error body: replacing it
changes nothing in the result. -/
theorem handleTurn_errorBody_irrelevant (env : TurnEnv) (b : String) :
    handleTurn { env with provider := { env.provider with errorBody := b } }
      = handleTurn env := by
  cases env with
  | mk k a p c g bd pr su sa => cases pr; rfl

/-- C8: on a failed provider call the caller-facing failure message is
the generic string built from the status code only; two runs that differ
only in the provider's raw error body (same status) produce identical
results, so the raw error body never reaches the caller. -/
theorem provider_error_body_not_exposed (env : TurnEnv) (b1 b2 : String)
    (key uid : String) (msg : Option String)
    (hk : env.apiKey = some key) (ha : env.authUser = some uid)
    (hb : env.body = Except.ok msg) (hfail : env.provider.ok = false) :
    handleTurn { env with provider := { env.provider with errorBody := b1 } }
        = handleTurn { env with provider := { env.provider with errorBody := b2 } }
      ∧ (handleTurn env).outcome
          = TurnOutcome.failure ("OpenAI API error: " ++ toString env.provider.status) := by
  constructor
  · exact (handleTurn_errorBody_irrelevant env b1).trans
      (handleTurn_errorBody_irrelevant env b2).symm
  · simp [handleTurn, hk, ha, hb, hfail]

/-- C8 witness: two concrete runs differing only in the provider's error
body give identical results, through `provider_error_body_not_exposed`. -/
theorem provider_error_body_not_exposed_witness :
    handleTurn { failEnv with provider := { failEnv.provider with errorBody := "secret A" } }
        = handleTurn { failEnv with provider := { failEnv.provider with errorBody := "secret B" } }
      ∧ (handleTurn failEnv).outcome
          = TurnOutcome.failure ("OpenAI API error: " ++ toString (500 : Nat)) :=
  provider_error_body_not_exposed failEnv "secret A" "secret B" "k" "user-1"
    (some "How much should I save monthly?") rfl rfl rfl rfl

/-- C9: an authenticated request whose body fails to parse (missing body
or invalid JSON makes `req.json()` reject) fails the turn with the 500
error response carrying the parse error, appends zero chat-history rows,
and never invokes the provider; the executed steps show body parsing
after the three state reads. -/
theorem invalid_body_rejected (env : TurnEnv) (key uid e : String)
    (hk : env.apiKey = some key) (ha : env.authUser = some uid)
    (hb : env.body = Except.error e) :
    (handleTurn env).outcome = TurnOutcome.failure e
      ∧ (handleTurn env).rows = []
      ∧ (handleTurn env).events
          = [TurnStep.getUser, TurnStep.readProfile, TurnStep.readCreditInfo,
             TurnStep.readGoals, TurnStep.parseBody]
      ∧ TurnStep.callProvider ∉ (handleTurn env).events := by
  refine ⟨?_, ?_, ?_, ?_⟩ <;> simp [handleTurn, hk, ha, hb]

/-- C9 witness: concrete rejected body through `invalid_body_rejected`. -/
theorem invalid_body_rejected_witness :
    (handleTurn { okEnv with body := Except.error "Unexpected end of JSON input" }).outcome
        = TurnOutcome.failure "Unexpected end of JSON input"
      ∧ (handleTurn { okEnv with body := Except.error "Unexpected end of JSON input" }).rows = []
      ∧ (handleTurn { okEnv with body := Except.error "Unexpected end of JSON input" }).events
          = [TurnStep.getUser, TurnStep.readProfile, TurnStep.readCreditInfo,
             TurnStep.readGoals, TurnStep.parseBody]
      ∧ TurnStep.callProvider
          ∉ (handleTurn { okEnv with body := Except.error "Unexpected end of JSON input" }).events :=
  invalid_body_rejected { okEnv with body := Except.error "Unexpected end of JSON input" }
    "k" "user-1" "Unexpected end of JSON input" rfl rfl rfl

/-- C10: the two inserts are independent — when the user-message insert
fails and the assistant insert succeeds, the assistant insert is still
attempted and the history gains exactly the assistant-authored row, with
no corresponding user row, while the turn still succeeds. -/
theorem insert_failures_independent (env : TurnEnv) (key uid : String)
    (msg r : Option String) (e : String)
    (hk : env.apiKey = some key) (ha : env.authUser = some uid)
    (hb : env.body = Except.ok msg) (hok : env.provider.ok = true)
    (hr : extractReply env.provider.payload = Except.ok r)
    (hu : env.saveUserError = some e) (hai : env.saveAIError = none) :
    (handleTurn env).rows = [⟨uid, r, false⟩]
      ∧ TurnStep.insertAssistantMessage ∈ (handleTurn env).events
      ∧ TurnStep.insertUserMessage ∈ (handleTurn env).events
      ∧ (handleTurn env).outcome = TurnOutcome.success r := by
  refine ⟨?_, ?_, ?_, ?_⟩ <;> simp [handleTurn, hk, ha, hb, hok, hr, hu, hai]

/-- C10 witness: concrete failed user insert with successful assistant
insert through `insert_failures_independent`. -/
theorem insert_failures_independent_witness :
    (handleTurn { okEnv with saveUserError := some "duplicate key" }).rows
        = [⟨"user-1", some "Save 20 percent.", false⟩]
      ∧ TurnStep.insertAssistantMessage
          ∈ (handleTurn { okEnv with saveUserError := some "duplicate key" }).events
      ∧ TurnStep.insertUserMessage
          ∈ (handleTurn { okEnv with saveUserError := some "duplicate key" }).events
      ∧ (handleTurn { okEnv with saveUserError := some "duplicate key" }).outcome
          = TurnOutcome.success (some "Save 20 percent.") :=
  insert_failures_independent { okEnv with saveUserError := some "duplicate key" }
    "k" "user-1" (some "How much should I save monthly?") (some "Save 20 percent.")
    "duplicate key" rfl rfl rfl rfl rfl rfl rfl
